import Mathlib

/-!
Verification of the identify protocol (src/network/src/protocols/identify/mod.rs)
and the tx-pool controller/service (src/tx-pool/src/service.rs) of the
ckb-blockchain repository, via a shallow embedding of the relevant Rust code.

Library types that the code only inspects through a fixed interface are
abstracted to exactly that interface: an IP address is reduced to the one bit
the p2p predicate is_reachable reports about it, a multiaddr to its optional
socket-address form plus an identifying tag, time instants and durations to
natural numbers of seconds.  Side effects on the network state (misbehaviour
reports, address-store updates, bans, protocol opening) are made explicit as
event lists returned next to the function results.
-/

namespace CkbSpec

/-- An IP address, abstracted to the one property the identify code inspects:
whether the p2p library predicate is_reachable accepts it (global routability). -/
structure IpAddr where
  globallyRoutable : Bool
deriving DecidableEq

/-- p2p::utils::is_reachable, abstracted: accepts exactly the globally routable
addresses. -/
def is_reachable (ip : IpAddr) : Bool := ip.globallyRoutable

/-- A socket address as produced by multiaddr_to_socketaddr. -/
structure SocketAddr where
  ip : IpAddr
  port : Nat
deriving DecidableEq

/-- A multiaddr, abstracted to an identifying tag plus the (optional) result of
p2p::utils::multiaddr_to_socketaddr on it. -/
structure Multiaddr where
  tag : Nat
  sock : Option SocketAddr
deriving DecidableEq

/-- p2p::utils::multiaddr_to_socketaddr on the abstracted multiaddr. -/
def multiaddr_to_socketaddr (a : Multiaddr) : Option SocketAddr := a.sock

/-- Constant MAX_RETURN_LISTEN_ADDRS from mod.rs. -/
def MAX_RETURN_LISTEN_ADDRS : Nat := 10

/-- Constant BAN_ON_NOT_SAME_NET from mod.rs, in seconds. -/
def BAN_ON_NOT_SAME_NET : Nat := 5 * 60

/-- Constant CHECK_TIMEOUT_INTERVAL from mod.rs, in seconds. -/
def CHECK_TIMEOUT_INTERVAL : Nat := 1

/-- Constant DEFAULT_TIMEOUT from mod.rs, in seconds. -/
def DEFAULT_TIMEOUT : Nat := 8

/-- Constant MAX_ADDRS from mod.rs. -/
def MAX_ADDRS : Nat := 10

/-- enum Misbehavior from mod.rs. -/
inductive Misbehavior
  | DuplicateListenAddrs
  | DuplicateObservedAddr
  | Timeout
  | InvalidData
  | TooManyAddresses (n : Nat)
deriving DecidableEq

/-- enum MisbehaveResult from mod.rs. -/
inductive MisbehaveResult
  | Continue
  | Disconnect
deriving DecidableEq

/-- MisbehaveResult::is_disconnect. -/
def MisbehaveResult.is_disconnect : MisbehaveResult → Bool
  | .Disconnect => true
  | _ => false

/-- p2p SessionType: direction of a session. -/
inductive SessionType
  | inbound
  | outbound
deriving DecidableEq

/-- SessionType::is_outbound. -/
def SessionType.is_outbound : SessionType → Bool
  | .outbound => true
  | .inbound => false

/-- SessionType::is_inbound. -/
def SessionType.is_inbound : SessionType → Bool
  | .inbound => true
  | .outbound => false

/-- The part of the p2p SessionContext the identify code reads: the session id
and its direction. -/
structure SessionContext where
  id : Nat
  ty : SessionType
deriving DecidableEq

/-- struct RemoteInfo from mod.rs.  Peer ids are abstracted to naturals and
Instant/Duration to seconds. -/
structure RemoteInfo where
  peer_id : Nat
  session : SessionContext
  connected_at : Nat
  timeout : Nat
  listen_addrs : Option (List Multiaddr)
  observed_addr : Option Multiaddr
deriving DecidableEq

/-- RemoteInfo::new: both optional fields start as None. -/
def RemoteInfo.new (peer_id : Nat) (session : SessionContext)
    (connected_at timeout : Nat) : RemoteInfo :=
  { peer_id := peer_id, session := session, connected_at := connected_at,
    timeout := timeout, listen_addrs := none, observed_addr := none }

/-- The calls IdentifyProtocol makes into its Callback, reified as events so
theorems can talk about what was reported or forwarded to the address store. -/
inductive Event
  | misbehave (peer_id : Nat) (kind : Misbehavior)
  | addRemoteListenAddrs (peer_id : Nat) (addrs : List Multiaddr)
  | addObservedAddr (peer_id : Nat) (addr : Multiaddr) (ty : SessionType)
deriving DecidableEq

/-- The responses of the Callback trait that IdentifyProtocol branches on:
the result of misbehave and of add_observed_addr. -/
structure Callback where
  misbehave : Nat → Misbehavior → MisbehaveResult
  add_observed_addr : Nat → Multiaddr → SessionType → MisbehaveResult

/-- The reachability filter used by process_listens, process_observed and
connected: an address with no socket form is dropped (unwrap_or(false));
otherwise it passes when global_ip_only is off or the ip is reachable. -/
def reachable_filter (global_ip_only : Bool) (addr : Multiaddr) : Bool :=
  match multiaddr_to_socketaddr addr with
  | some socket_addr => !global_ip_only || is_reachable socket_addr.ip
  | none => false

/-- IdentifyProtocol::process_listens.  Returns the MisbehaveResult, the
updated RemoteInfo, and the callback events emitted. -/
def process_listens (global_ip_only : Bool) (cb : Callback) (info : RemoteInfo)
    (listens : List Multiaddr) : MisbehaveResult × RemoteInfo × List Event :=
  if info.listen_addrs.isSome then
    (cb.misbehave info.peer_id Misbehavior.DuplicateListenAddrs, info,
      [Event.misbehave info.peer_id Misbehavior.DuplicateListenAddrs])
  else if listens.length > MAX_ADDRS then
    (cb.misbehave info.peer_id (Misbehavior.TooManyAddresses listens.length), info,
      [Event.misbehave info.peer_id (Misbehavior.TooManyAddresses listens.length)])
  else
    (MisbehaveResult.Continue,
      { info with listen_addrs := some (listens.filter (reachable_filter global_ip_only)) },
      [Event.addRemoteListenAddrs info.peer_id
        (listens.filter (reachable_filter global_ip_only))])

/-- IdentifyProtocol::process_observed.  On a duplicate, reports and leaves the
info unchanged.  Otherwise the reachability check gates only the call to
add_observed_addr; the observed address itself is stored unconditionally
unless add_observed_addr forced an early Disconnect return. -/
def process_observed (global_ip_only : Bool) (cb : Callback) (info : RemoteInfo)
    (observed : Multiaddr) : MisbehaveResult × RemoteInfo × List Event :=
  if info.observed_addr.isSome then
    (cb.misbehave info.peer_id Misbehavior.DuplicateObservedAddr, info,
      [Event.misbehave info.peer_id Misbehavior.DuplicateObservedAddr])
  else
    if reachable_filter global_ip_only observed then
      if (cb.add_observed_addr info.peer_id observed info.session.ty).is_disconnect then
        (MisbehaveResult.Disconnect, info,
          [Event.addObservedAddr info.peer_id observed info.session.ty])
      else
        (MisbehaveResult.Continue, { info with observed_addr := some observed },
          [Event.addObservedAddr info.peer_id observed info.session.ty])
    else
      (MisbehaveResult.Continue, { info with observed_addr := some observed }, [])

/-- The local listen addresses sent by IdentifyProtocol::connected: the
callback addresses filtered by reachability and capped at MAX_ADDRS. -/
def connected_listen_addrs (global_ip_only : Bool)
    (local_addrs : List Multiaddr) : List Multiaddr :=
  (local_addrs.filter (reachable_filter global_ip_only)).take MAX_ADDRS

/-- The per-entry timeout condition of IdentifyProtocol::notify:
(listen_addrs is None or observed_addr is None) and connected_at + timeout
has been reached. -/
def timed_out (info : RemoteInfo) (now : Nat) : Bool :=
  (info.listen_addrs.isNone || info.observed_addr.isNone)
    && decide (info.connected_at + info.timeout ≤ now)

/-- The Timeout misbehaviour reports emitted by one IdentifyProtocol::notify
tick over the remote_infos map (represented as an association list).  The
tick starts with the `if !self.secio_enabled { return; }` guard: once a
pubkey-less connect has disabled the instance, notify reports nothing. -/
def notify_events (secio_enabled : Bool) (infos : List (Nat × RemoteInfo))
    (now : Nat) : List Event :=
  if !secio_enabled then []
  else
    (infos.filter (fun p => timed_out p.2 now)).map
      (fun p => Event.misbehave p.2.peer_id Misbehavior.Timeout)

/-- The session ids disconnected by one IdentifyProtocol::notify tick: those
timed-out entries whose Timeout report came back Disconnect.  Guarded by the
same `if !self.secio_enabled { return; }` early return as the reports. -/
def notify_disconnects (cb : Callback) (secio_enabled : Bool)
    (infos : List (Nat × RemoteInfo)) (now : Nat) : List Nat :=
  if !secio_enabled then []
  else
    (infos.filter (fun p => timed_out p.2 now
        && (cb.misbehave p.2.peer_id Misbehavior.Timeout).is_disconnect)).map
      (fun p => p.1)

/-- struct Flags from mod.rs: a 64-bit bitset (land never leaves u64 range, so
Nat is a faithful carrier). -/
structure Flags where
  val : Nat
deriving DecidableEq

/-- Flags::contains: (self.0 and flags.0) == flags.0. -/
def Flags.contains (self flags : Flags) : Bool :=
  Nat.land self.val flags.val == flags.val

/-- enum Flag from mod.rs; FullNode = 0x1. -/
inductive Flag
  | FullNode
deriving DecidableEq

/-- The From(Flag) conversion: Flag::FullNode as u64 = 1. -/
def Flag.toFlags : Flag → Flags
  | .FullNode => { val := 1 }

/-- Modelled from the spec: the wire-level view an encoded inner identify
payload presents through packed::IdentifyReader (the molecule codec is not
under src/).  Per the spec the payload encodes a name (utf8), a u64 flag and
a client_version (utf8); malformed stands for bytes from_slice rejects, and a
None string field stands for bytes whose as_utf8 conversion fails. -/
inductive IdentifyReader
  | malformed
  | fields (name : Option String) (flag : Nat) (client_version : Option String)
deriving DecidableEq

/-- struct Identify from mod.rs (the lazily populated encode cache is
irrelevant to verification and omitted). -/
structure Identify where
  name : String
  client_version : String
  flags : Flags
deriving DecidableEq

/-- Identify::verify, in source order: structural decode, name utf8, name
equality, flag == 0, client_version utf8. -/
def Identify.verify (self : Identify) (data : IdentifyReader) :
    Option (Flags × String) :=
  match data with
  | .malformed => none
  | .fields name flag client_version =>
    match name with
    | none => none
    | some n =>
      if self.name != n then none
      else if flag == 0 then none
      else
        match client_version with
        | none => none
        | some raw_client_version => some ({ val := flag }, raw_client_version)

/-- p2p TargetProtocol, as used by received_identify. -/
inductive TargetProtocol
  | single (id : Nat)
  | multi (ids : List Nat)
deriving DecidableEq

/-- Modelled from the spec: crate::network::FEELER_PROTOCOL_ID (not under
src/); only its identity matters, never its value. -/
def FEELER_PROTOCOL_ID : Nat := 3

/-- The network-state effects of IdentifyCallback::received_identify, reified
as events. -/
inductive NetEvent
  | banSession (duration_secs : Nat) (reason : String)
  | registerClientVersion (client_version : String)
  | openProtocols (target : TargetProtocol)
deriving DecidableEq

/-- The data IdentifyCallback::received_identify reads from its surroundings:
the local Identify, the registered protocol ids
(NetworkState::get_protocol_ids applies a predicate over them), and whether
the peer registry marks this peer as a feeler. -/
structure IdentifyCallbackState where
  identify : Identify
  protocol_ids : List Nat
  is_feeler : Bool

/-- IdentifyCallback::received_identify.  Returns the MisbehaveResult and the
network-state events performed (ban, client-version registration, protocol
opening), in program order. -/
def received_identify (self : IdentifyCallbackState) (session : SessionContext)
    (data : IdentifyReader) : MisbehaveResult × List NetEvent :=
  match self.identify.verify data with
  | none =>
    (MisbehaveResult.Disconnect,
      [NetEvent.banSession BAN_ON_NOT_SAME_NET "The nodes are not on the same network"])
  | some (flags, client_version) =>
    if session.ty.is_outbound then
      if self.is_feeler then
        (MisbehaveResult.Continue,
          [NetEvent.openProtocols (TargetProtocol.single FEELER_PROTOCOL_ID)])
      else if flags.contains self.identify.flags then
        (MisbehaveResult.Continue,
          [NetEvent.registerClientVersion client_version,
            NetEvent.openProtocols (TargetProtocol.multi
              (self.protocol_ids.filter (fun id => id != FEELER_PROTOCOL_ID)))])
      else
        (MisbehaveResult.Disconnect, [])
    else
      (MisbehaveResult.Continue, [NetEvent.registerClientVersion client_version])

/-- IdentifyCallback::listen_addrs: sort the (address, score) pairs returned
by NetworkState::public_addrs ascending by score (sort_by on the score field
is a stable ascending sort, embedded as insertion sort), take the first
MAX_RETURN_LISTEN_ADDRS, and keep the addresses. -/
def listen_addrs (public_addrs : List (Multiaddr × Nat)) : List Multiaddr :=
  ((public_addrs.insertionSort (fun a b => a.2 ≤ b.2)).take
    MAX_RETURN_LISTEN_ADDRS).map (fun p => p.1)

/-- An event only hands reachable data to the address store (with
global_ip_only on): an addRemoteListenAddrs event carries only addresses
passing the reachability filter, an addObservedAddr event carries one such
address; misbehaviour reports carry no address. -/
def store_forward_ok (e : Event) : Bool :=
  match e with
  | .misbehave _ _ => true
  | .addRemoteListenAddrs _ addrs => addrs.all (reachable_filter true)
  | .addObservedAddr _ addr _ => reachable_filter true addr

/-! The tx-pool controller and service (src/tx-pool/src/service.rs).
External payload types (transactions, proposal short ids, cycle counts,
entries) are opaque to the code under verification and abstracted to
naturals; the bounded tokio mpsc channel is abstracted to its queue,
capacity and closed flag. -/

/-- Constant DEFAULT_CHANNEL_SIZE from service.rs. -/
def DEFAULT_CHANNEL_SIZE : Nat := 512

/-- The abstracted ckb_types transaction payload. -/
abbrev TransactionView := Nat

/-- The abstracted proposal short id. -/
abbrev ProposalShortId := Nat

/-- The abstracted cycle count. -/
abbrev Cycle := Nat

/-- tokio mpsc try_send failure: the channel is full, or every receiver is
gone (closed). -/
inductive TrySendError
  | full
  | closed
deriving DecidableEq

/-- The two caller-visible controller channel errors of the spec:
backpressure for a full channel, shutdown for a closed one. -/
inductive ControllerError
  | backpressure
  | shutdown
deriving DecidableEq

/-- Modelled from the spec: crate::error::handle_try_send_error (not under
src/) turns a full-channel send failure into the backpressure error and a
closed-channel failure into the shutdown error, both surfaced to the
caller. -/
def handle_try_send_error : TrySendError → ControllerError
  | .full => ControllerError.backpressure
  | .closed => ControllerError.shutdown

/-- A bounded mpsc channel (tokio::sync::mpsc::channel), abstracted. -/
structure Channel (α : Type) where
  queue : List α
  capacity : Nat
  closed : Bool
deriving DecidableEq

/-- try_send on the bounded channel: error when closed, error when at
capacity, otherwise enqueue. -/
def Channel.try_send {α : Type} (c : Channel α) (msg : α) :
    Except TrySendError (Channel α) :=
  if c.closed then Except.error TrySendError.closed
  else if c.capacity ≤ c.queue.length then Except.error TrySendError.full
  else Except.ok { c with queue := c.queue ++ [msg] }

/-- enum Message from service.rs, argument payloads abstracted; the
per-request crossbeam reply channel is created by the controller and modelled
by the OpOutcome below rather than carried in the message. -/
inductive Message
  | BlockTemplate (bytes_limit proposals_limit max_version : Option Nat)
  | SubmitTxs (txs : List TransactionView)
  | NotifyTxs (txs : List TransactionView)
  | ChainReorg
  | FreshProposalsFilter (ids : List ProposalShortId)
  | FetchTxs (ids : List ProposalShortId)
  | FetchTxsWithCycles (ids : List ProposalShortId)
  | GetTxPoolInfo
  | FetchTxRPC (id : ProposalShortId)
  | NewUncle
  | PlugEntry (entries : List Nat)
  | EstimateFeeRate (expect_confirm_blocks : Nat)
deriving DecidableEq

/-- Outcome of one TxPoolController method call: a channel error surfaced to
the caller with no reply wait, a request enqueued with the caller now blocked
on its single-slot reply channel, or a notify enqueued and returned at
once. -/
inductive OpOutcome
  | errored (e : ControllerError)
  | awaitingReply (c : Channel Message)
  | sentNoReply (c : Channel Message)
deriving DecidableEq

/-- TxPoolController::get_block_template. -/
def get_block_template (c : Channel Message)
    (bytes_limit proposals_limit max_version : Option Nat) : OpOutcome :=
  match c.try_send (Message.BlockTemplate bytes_limit proposals_limit max_version) with
  | .error e => OpOutcome.errored (handle_try_send_error e)
  | .ok c2 => OpOutcome.awaitingReply c2

/-- TxPoolController::notify_new_uncle. -/
def notify_new_uncle (c : Channel Message) : OpOutcome :=
  match c.try_send Message.NewUncle with
  | .error e => OpOutcome.errored (handle_try_send_error e)
  | .ok c2 => OpOutcome.sentNoReply c2

/-- TxPoolController::update_tx_pool_for_reorg. -/
def update_tx_pool_for_reorg (c : Channel Message) : OpOutcome :=
  match c.try_send Message.ChainReorg with
  | .error e => OpOutcome.errored (handle_try_send_error e)
  | .ok c2 => OpOutcome.sentNoReply c2

/-- TxPoolController::submit_txs. -/
def submit_txs (c : Channel Message) (txs : List TransactionView) : OpOutcome :=
  match c.try_send (Message.SubmitTxs txs) with
  | .error e => OpOutcome.errored (handle_try_send_error e)
  | .ok c2 => OpOutcome.awaitingReply c2

/-- TxPoolController::plug_entry. -/
def plug_entry (c : Channel Message) (entries : List Nat) : OpOutcome :=
  match c.try_send (Message.PlugEntry entries) with
  | .error e => OpOutcome.errored (handle_try_send_error e)
  | .ok c2 => OpOutcome.awaitingReply c2

/-- TxPoolController::notify_txs. -/
def notify_txs (c : Channel Message) (txs : List TransactionView) : OpOutcome :=
  match c.try_send (Message.NotifyTxs txs) with
  | .error e => OpOutcome.errored (handle_try_send_error e)
  | .ok c2 => OpOutcome.sentNoReply c2

/-- TxPoolController::get_tx_pool_info. -/
def get_tx_pool_info (c : Channel Message) : OpOutcome :=
  match c.try_send Message.GetTxPoolInfo with
  | .error e => OpOutcome.errored (handle_try_send_error e)
  | .ok c2 => OpOutcome.awaitingReply c2

/-- TxPoolController::fresh_proposals_filter. -/
def fresh_proposals_filter (c : Channel Message)
    (proposals : List ProposalShortId) : OpOutcome :=
  match c.try_send (Message.FreshProposalsFilter proposals) with
  | .error e => OpOutcome.errored (handle_try_send_error e)
  | .ok c2 => OpOutcome.awaitingReply c2

/-- TxPoolController::fetch_tx_for_rpc. -/
def fetch_tx_for_rpc (c : Channel Message) (id : ProposalShortId) : OpOutcome :=
  match c.try_send (Message.FetchTxRPC id) with
  | .error e => OpOutcome.errored (handle_try_send_error e)
  | .ok c2 => OpOutcome.awaitingReply c2

/-- TxPoolController::fetch_txs. -/
def fetch_txs (c : Channel Message) (short_ids : List ProposalShortId) : OpOutcome :=
  match c.try_send (Message.FetchTxs short_ids) with
  | .error e => OpOutcome.errored (handle_try_send_error e)
  | .ok c2 => OpOutcome.awaitingReply c2

/-- TxPoolController::fetch_txs_with_cycles. -/
def fetch_txs_with_cycles (c : Channel Message)
    (short_ids : List ProposalShortId) : OpOutcome :=
  match c.try_send (Message.FetchTxsWithCycles short_ids) with
  | .error e => OpOutcome.errored (handle_try_send_error e)
  | .ok c2 => OpOutcome.awaitingReply c2

/-- TxPoolController::estimate_fee_rate. -/
def estimate_fee_rate (c : Channel Message)
    (expect_confirm_blocks : Nat) : OpOutcome :=
  match c.try_send (Message.EstimateFeeRate expect_confirm_blocks) with
  | .error e => OpOutcome.errored (handle_try_send_error e)
  | .ok c2 => OpOutcome.awaitingReply c2

/-- Modelled from the spec and the handler's use site: TxPool::get_tx_with_cycles
(pool.rs, not under src/) looks a transaction up by proposal short id and
returns it together with its optionally-known verification cycle count; the
pool is abstracted to an association list. -/
def get_tx_with_cycles
    (pool : List (ProposalShortId × TransactionView × Option Cycle))
    (id : ProposalShortId) : Option (TransactionView × Option Cycle) :=
  (pool.find? (fun e => e.1 == id)).map (fun e => e.2)

/-- The Message::FetchTxsWithCycles arm of process in service.rs: a requested
id is kept exactly when the pool has its transaction and the cycle count is
known (Some). -/
def process_fetch_txs_with_cycles
    (pool : List (ProposalShortId × TransactionView × Option Cycle))
    (short_ids : List ProposalShortId) :
    List (ProposalShortId × TransactionView × Cycle) :=
  short_ids.filterMap (fun short_id =>
    (get_tx_with_cycles pool short_id).bind (fun p =>
      p.2.map (fun cycles => (short_id, p.1, cycles))))

/-! Concrete inputs used by witnesses and counterexamples. -/

/-- A full, open channel at the controller capacity. -/
def fullChannel : Channel Message :=
  { queue := List.replicate DEFAULT_CHANNEL_SIZE Message.GetTxPoolInfo,
    capacity := DEFAULT_CHANNEL_SIZE, closed := false }

/-- A closed channel at the controller capacity. -/
def closedChannel : Channel Message :=
  { queue := [], capacity := DEFAULT_CHANNEL_SIZE, closed := true }

/-- The local identity used in concrete scenarios: a full node on the
"mainnet" chain. -/
def idLocal : Identify :=
  { name := "mainnet", client_version := "v1", flags := Flag.toFlags Flag.FullNode }

/-- A callback state for idLocal with four registered protocols, feeler
included, peer not marked as feeler. -/
def cbStateLocal : IdentifyCallbackState :=
  { identify := idLocal, protocol_ids := [0, 1, 2, FEELER_PROTOCOL_ID], is_feeler := false }

/-- An outbound session context. -/
def sessionOut : SessionContext := { id := 3, ty := SessionType.outbound }

/-- A well-formed remote payload on a different chain name. -/
def readerOtherNet : IdentifyReader :=
  IdentifyReader.fields (some "testnet") 1 (some "v2")

/-- A well-formed remote payload on the same chain with full-node flags. -/
def readerSameNet : IdentifyReader :=
  IdentifyReader.fields (some "mainnet") 1 (some "v2")

/-- A well-formed remote payload on the same chain whose flags lack the local
full-node bit. -/
def readerNoFlags : IdentifyReader :=
  IdentifyReader.fields (some "mainnet") 2 (some "v2")

/-- The i-th sample address of the C7 scenario: all reachable, distinct tags. -/
def scoredAddr (i : Nat) : Multiaddr :=
  { tag := 100 + i, sock := some { ip := ⟨true⟩, port := 8000 + i } }

/-- Eleven (address, score) pairs with pairwise distinct scores 0..10. -/
def pairs11 : List (Multiaddr × Nat) :=
  (List.range 11).map (fun i => (scoredAddr i, i))

/-- A multiaddr whose socket address has a globally routable ip. -/
def goodAddr : Multiaddr := { tag := 1, sock := some { ip := ⟨true⟩, port := 8115 } }

/-- A multiaddr whose socket address has a non-globally-routable ip. -/
def badAddr : Multiaddr := { tag := 2, sock := some { ip := ⟨false⟩, port := 8115 } }

/-- A callback that, like IdentifyCallback, answers Disconnect to every
misbehaviour report and Continue to add_observed_addr. -/
def cbDisconnect : Callback :=
  { misbehave := fun _ _ => MisbehaveResult.Disconnect,
    add_observed_addr := fun _ _ _ => MisbehaveResult.Continue }

/-- A freshly connected RemoteInfo (both optional fields None). -/
def freshInfo : RemoteInfo :=
  RemoteInfo.new 7 { id := 3, ty := SessionType.outbound } 0 DEFAULT_TIMEOUT

/-- freshInfo after its listen_addrs have been set. -/
def infoWithListens : RemoteInfo := { freshInfo with listen_addrs := some [goodAddr] }

/-- freshInfo after its observed_addr has been set. -/
def infoWithObserved : RemoteInfo := { freshInfo with observed_addr := some goodAddr }

/-- C1: if process_listens runs when listen_addrs is already Some, a
DuplicateListenAddrs misbehaviour is reported and the RemoteInfo (in
particular listen_addrs) is unchanged; if process_observed runs when
observed_addr is already Some, a DuplicateObservedAddr misbehaviour is
reported and the RemoteInfo is unchanged.  Hence each field moves from None
to Some at most once. -/
theorem c1_duplicate_fields_reported_unchanged (g : Bool) (cb : Callback)
    (info : RemoteInfo) (listens : List Multiaddr) (observed : Multiaddr) :
    (info.listen_addrs.isSome = true →
      process_listens g cb info listens =
        (cb.misbehave info.peer_id Misbehavior.DuplicateListenAddrs, info,
          [Event.misbehave info.peer_id Misbehavior.DuplicateListenAddrs])) ∧
    (info.observed_addr.isSome = true →
      process_observed g cb info observed =
        (cb.misbehave info.peer_id Misbehavior.DuplicateObservedAddr, info,
          [Event.misbehave info.peer_id Misbehavior.DuplicateObservedAddr])) := by
  constructor
  · intro h
    simp [process_listens, h]
  · intro h
    simp [process_observed, h]

/-- Witness for C1 at concrete inputs. -/
theorem c1_duplicate_fields_reported_unchanged_witness :
    process_listens true cbDisconnect infoWithListens [goodAddr] =
      (MisbehaveResult.Disconnect, infoWithListens,
        [Event.misbehave 7 Misbehavior.DuplicateListenAddrs]) ∧
    process_observed true cbDisconnect infoWithObserved goodAddr =
      (MisbehaveResult.Disconnect, infoWithObserved,
        [Event.misbehave 7 Misbehavior.DuplicateObservedAddr]) := by
  have h := c1_duplicate_fields_reported_unchanged true cbDisconnect infoWithListens
    [goodAddr] goodAddr
  have h2 := c1_duplicate_fields_reported_unchanged true cbDisconnect infoWithObserved
    [goodAddr] goodAddr
  exact ⟨h.1 (by decide), h2.2 (by decide)⟩

/-- C2: in received_identify on an outbound non-feeler session with a
verified payload, if the remote flags contain the local flag set then the
client_version is recorded, exactly the local protocols other than the feeler
protocol are opened, and Continue is returned; otherwise Disconnect is
returned and no protocol is opened. -/
theorem c2_outbound_flag_gate (st : IdentifyCallbackState)
    (session : SessionContext) (data : IdentifyReader) (flags : Flags)
    (client_version : String)
    (hout : session.ty = SessionType.outbound)
    (hfeeler : st.is_feeler = false)
    (hverify : st.identify.verify data = some (flags, client_version)) :
    (flags.contains st.identify.flags = true →
      received_identify st session data =
        (MisbehaveResult.Continue,
          [NetEvent.registerClientVersion client_version,
            NetEvent.openProtocols (TargetProtocol.multi
              (st.protocol_ids.filter (fun id => id != FEELER_PROTOCOL_ID)))])) ∧
    (flags.contains st.identify.flags = false →
      received_identify st session data = (MisbehaveResult.Disconnect, [])) ∧
    (∀ id, id ∈ st.protocol_ids.filter (fun id => id != FEELER_PROTOCOL_ID) ↔
      id ∈ st.protocol_ids ∧ id ≠ FEELER_PROTOCOL_ID) := by
  refine ⟨?_, ?_, ?_⟩
  · intro hc
    simp [received_identify, hverify, hout, SessionType.is_outbound, hfeeler, hc]
  · intro hc
    simp [received_identify, hverify, hout, SessionType.is_outbound, hfeeler, hc]
  · intro id
    simp [List.mem_filter]

/-- Witness for C2 at concrete inputs: remote flags 0x1 ⊇ local 0x1 opens the
non-feeler protocols; remote flags 0x2 ⊉ 0x1 disconnects. -/
theorem c2_outbound_flag_gate_witness :
    received_identify cbStateLocal sessionOut readerSameNet =
      (MisbehaveResult.Continue,
        [NetEvent.registerClientVersion "v2",
          NetEvent.openProtocols (TargetProtocol.multi
            (cbStateLocal.protocol_ids.filter (fun id => id != FEELER_PROTOCOL_ID)))]) ∧
    received_identify cbStateLocal sessionOut readerNoFlags =
      (MisbehaveResult.Disconnect, []) :=
  ⟨(c2_outbound_flag_gate cbStateLocal sessionOut readerSameNet
      { val := 1 } "v2" rfl rfl (by decide)).1 (by decide),
    (c2_outbound_flag_gate cbStateLocal sessionOut readerNoFlags
      { val := 2 } "v2" rfl rfl (by decide)).2.1 (by decide)⟩

/-- C3 counterexample: on a name mismatch the code bans with the reason
string "The nodes are not on the same network", which is not the reason
"not on the same network" stated by the claim (duration 300 s and the
Disconnect result do hold). -/
theorem c3_counterexample :
    received_identify cbStateLocal sessionOut readerOtherNet =
      (MisbehaveResult.Disconnect,
        [NetEvent.banSession 300 "The nodes are not on the same network"]) ∧
    "The nodes are not on the same network" ≠ "not on the same network" := by
  exact ⟨by decide, by decide⟩

/-- C3 amended: when received_identify verifies a payload whose name differs
from the local name, the session is banned for exactly BAN_ON_NOT_SAME_NET =
300 s with reason "The nodes are not on the same network" and Disconnect is
returned. -/
theorem c3_amended_ban_on_name_mismatch (st : IdentifyCallbackState)
    (session : SessionContext) (n : String) (flag : Nat) (cv : Option String)
    (hne : st.identify.name ≠ n) :
    received_identify st session (IdentifyReader.fields (some n) flag cv) =
      (MisbehaveResult.Disconnect,
        [NetEvent.banSession BAN_ON_NOT_SAME_NET
          "The nodes are not on the same network"]) ∧
    BAN_ON_NOT_SAME_NET = 300 := by
  have hv : st.identify.verify (IdentifyReader.fields (some n) flag cv) = none := by
    simp [Identify.verify, hne]
  exact ⟨by simp [received_identify, hv], rfl⟩

/-- Witness for the amended C3 at concrete inputs. -/
theorem c3_amended_ban_on_name_mismatch_witness :
    received_identify cbStateLocal sessionOut
        (IdentifyReader.fields (some "testnet") 1 (some "v2")) =
      (MisbehaveResult.Disconnect,
        [NetEvent.banSession BAN_ON_NOT_SAME_NET
          "The nodes are not on the same network"]) ∧
    BAN_ON_NOT_SAME_NET = 300 :=
  c3_amended_ban_on_name_mismatch cbStateLocal sessionOut "testnet" 1 (some "v2")
    (by decide)

/-- C8: Identify::verify returns None not only on a name mismatch but on
every verification failure — a structurally undecodable payload, a non-UTF-8
name, a flag equal to 0, a non-UTF-8 client_version — and whenever verify
returns None, received_identify bans for 300 s with reason "The nodes are
not on the same network" and returns Disconnect. -/
theorem c8_verify_failures_banned (st : IdentifyCallbackState)
    (session : SessionContext) :
    st.identify.verify IdentifyReader.malformed = none ∧
    (∀ flag cv, st.identify.verify (IdentifyReader.fields none flag cv) = none) ∧
    (∀ n flag cv, n ≠ st.identify.name →
      st.identify.verify (IdentifyReader.fields (some n) flag cv) = none) ∧
    (∀ nm cv, st.identify.verify (IdentifyReader.fields nm 0 cv) = none) ∧
    (∀ nm flag, st.identify.verify (IdentifyReader.fields nm flag none) = none) ∧
    (∀ data, st.identify.verify data = none →
      received_identify st session data =
        (MisbehaveResult.Disconnect,
          [NetEvent.banSession BAN_ON_NOT_SAME_NET
            "The nodes are not on the same network"]) ∧
      BAN_ON_NOT_SAME_NET = 300) := by
  refine ⟨rfl, fun flag cv => rfl, ?_, ?_, ?_, ?_⟩
  · intro n flag cv hne
    have h : st.identify.name ≠ n := fun h => hne h.symm
    simp [Identify.verify, h]
  · intro nm cv
    cases nm with
    | none => rfl
    | some n =>
      by_cases h : st.identify.name = n <;> simp [Identify.verify, h]
  · intro nm flag
    cases nm with
    | none => rfl
    | some n =>
      by_cases h : st.identify.name = n <;> simp [Identify.verify, h]
  · intro data h
    exact ⟨by simp [received_identify, h], rfl⟩

/-- Witness for C8 at concrete inputs: a mismatched name fails verification,
and a malformed payload is banned and disconnected. -/
theorem c8_verify_failures_banned_witness :
    cbStateLocal.identify.verify
      (IdentifyReader.fields (some "testnet") 1 (some "v2")) = none ∧
    received_identify cbStateLocal sessionOut IdentifyReader.malformed =
      (MisbehaveResult.Disconnect,
        [NetEvent.banSession BAN_ON_NOT_SAME_NET
          "The nodes are not on the same network"]) :=
  ⟨(c8_verify_failures_banned cbStateLocal sessionOut).2.2.1 "testnet" 1
      (some "v2") (by decide),
    ((c8_verify_failures_banned cbStateLocal sessionOut).2.2.2.2.2
      IdentifyReader.malformed
      (c8_verify_failures_banned cbStateLocal sessionOut).1).1⟩

/-- C4 counterexample: notify begins with `if !self.secio_enabled { return; }`
(mod.rs lines 321-323); once a pubkey-less connect has set secio_enabled to
false, a stored RemoteInfo with both fields None and connected_at + timeout
≤ now gets no Timeout report and no disconnect on the tick, so the
unconditional per-tick claim is false of the program. -/
theorem c4_counterexample :
    freshInfo.listen_addrs = none ∧
    freshInfo.observed_addr = none ∧
    freshInfo.connected_at + freshInfo.timeout ≤ 8 ∧
    notify_events false [(3, freshInfo)] 8 = [] ∧
    notify_disconnects cbDisconnect false [(3, freshInfo)] 8 = [] := by
  decide

/-- C4 amended: on a notify tick of an instance whose secio_enabled flag is
still true, every stored RemoteInfo with listen_addrs or observed_addr still
None whose connected_at + timeout is at or before now gets a Timeout
misbehaviour report, and its session is disconnected when the policy answers
Disconnect. -/
theorem c4_timeout_reported (cb : Callback) (infos : List (Nat × RemoteInfo))
    (now sid : Nat) (info : RemoteInfo)
    (hmem : (sid, info) ∈ infos)
    (hpending : info.listen_addrs = none ∨ info.observed_addr = none)
    (htime : info.connected_at + info.timeout ≤ now) :
    Event.misbehave info.peer_id Misbehavior.Timeout ∈
      notify_events true infos now ∧
    ((cb.misbehave info.peer_id Misbehavior.Timeout).is_disconnect = true →
      sid ∈ notify_disconnects cb true infos now) := by
  have ht : timed_out info now = true := by
    rcases hpending with h | h <;> simp [timed_out, h, htime]
  constructor
  · rw [notify_events]
    exact List.mem_map.mpr ⟨(sid, info), List.mem_filter.mpr ⟨hmem, ht⟩, rfl⟩
  · intro hd
    rw [notify_disconnects]
    exact List.mem_map.mpr
      ⟨(sid, info), List.mem_filter.mpr ⟨hmem, by simp [ht, hd]⟩, rfl⟩

/-- Witness for the amended C4: on a still-enabled instance, a session
connected at 0 with the default 8 s timeout that has received nothing is
reported and disconnected on the tick at 8 s. -/
theorem c4_timeout_reported_witness :
    Event.misbehave 7 Misbehavior.Timeout ∈
      notify_events true [(3, freshInfo)] 8 ∧
    3 ∈ notify_disconnects cbDisconnect true [(3, freshInfo)] 8 := by
  have h := c4_timeout_reported cbDisconnect [(3, freshInfo)] 8 3 freshInfo
    (by decide) (Or.inl rfl) (by decide)
  exact ⟨h.1, h.2 rfl⟩

/-- C5 counterexample: with global_ip_only on, a first observed address that
fails the reachability predicate is nevertheless stored into
RemoteInfo.observed_addr by process_observed (no event reaches the address
store), so the claim that every handled address is filtered before being
stored is false. -/
theorem c5_counterexample :
    reachable_filter true badAddr = false ∧
    (process_observed true cbDisconnect freshInfo badAddr).2.1.observed_addr =
      some badAddr ∧
    (process_observed true cbDisconnect freshInfo badAddr).2.2 = [] := by
  decide

/-- C5 amended: with global_ip_only on, every address handed to the address
store is reachable — the local listen addresses sent on connect, the remote
listen addresses stored in RemoteInfo and handed to add_remote_listen_addrs,
and the observed address forwarded to add_observed_addr are all filtered by
the reachability predicate; only the copy of the observed address kept in
RemoteInfo.observed_addr is stored unfiltered. -/
theorem c5_amended_global_ip_only_filtering (cb : Callback) (info : RemoteInfo)
    (local_addrs listens : List Multiaddr) (observed : Multiaddr) :
    (∀ a ∈ connected_listen_addrs true local_addrs,
      reachable_filter true a = true) ∧
    (∀ e ∈ (process_listens true cb info listens).2.2,
      store_forward_ok e = true) ∧
    (∀ e ∈ (process_observed true cb info observed).2.2,
      store_forward_ok e = true) ∧
    (info.listen_addrs = none →
      ∀ addrs, (process_listens true cb info listens).2.1.listen_addrs = some addrs →
        ∀ a ∈ addrs, reachable_filter true a = true) := by
  refine ⟨?_, ?_, ?_, ?_⟩
  · intro a ha
    exact (List.mem_filter.mp (List.mem_of_mem_take ha)).2
  · intro e he
    by_cases h1 : info.listen_addrs.isSome
    · simp [process_listens, h1] at he
      simp [he, store_forward_ok]
    · by_cases h2 : listens.length > MAX_ADDRS
      · simp [process_listens, h1, h2] at he
        simp [he, store_forward_ok]
      · simp [process_listens, h1, h2] at he
        subst he
        exact List.all_eq_true.mpr (fun a ha => (List.mem_filter.mp ha).2)
  · intro e he
    by_cases h1 : info.observed_addr.isSome
    · simp [process_observed, h1] at he
      simp [he, store_forward_ok]
    · by_cases h2 : reachable_filter true observed
      · by_cases h3 :
          (cb.add_observed_addr info.peer_id observed info.session.ty).is_disconnect
        · simp [process_observed, h1, h2, h3] at he
          simp [he, store_forward_ok, h2]
        · simp [process_observed, h1, h2, h3] at he
          simp [he, store_forward_ok, h2]
      · simp [process_observed, h1, h2] at he
  · intro hnone addrs h a ha
    by_cases h2 : listens.length > MAX_ADDRS
    · rw [process_listens] at h
      simp [hnone, h2] at h
    · rw [process_listens] at h
      simp [hnone, h2] at h
      subst h
      exact (List.mem_filter.mp ha).2

/-- Witness for the amended C5: a reachable address passes the connect-time
filter, and the process_listens event stores exactly the reachable subset. -/
theorem c5_amended_global_ip_only_filtering_witness :
    reachable_filter true goodAddr = true ∧
    store_forward_ok (Event.addRemoteListenAddrs 7 [goodAddr]) = true := by
  have h := c5_amended_global_ip_only_filtering cbDisconnect freshInfo
    [goodAddr, badAddr] [goodAddr, badAddr] goodAddr
  exact ⟨h.1 goodAddr (by decide),
    h.2.1 (Event.addRemoteListenAddrs 7 [goodAddr]) (by decide)⟩

/-- C9: a first observed address failing the reachability check is still
stored into RemoteInfo.observed_addr, add_observed_addr is never invoked
(no events), Continue is returned, and any later observed address from the
same session — reachable or not — is reported as DuplicateObservedAddr. -/
theorem c9_unreachable_observed_still_stored (cb : Callback)
    (info : RemoteInfo) (observed observed2 : Multiaddr)
    (hnone : info.observed_addr = none)
    (hunreach : reachable_filter true observed = false) :
    process_observed true cb info observed =
      (MisbehaveResult.Continue,
        { info with observed_addr := some observed }, []) ∧
    process_observed true cb { info with observed_addr := some observed }
        observed2 =
      (cb.misbehave info.peer_id Misbehavior.DuplicateObservedAddr,
        { info with observed_addr := some observed },
        [Event.misbehave info.peer_id Misbehavior.DuplicateObservedAddr]) := by
  constructor
  · simp [process_observed, hnone, hunreach]
  · simp [process_observed]

/-- Witness for C9 at concrete inputs: the unreachable badAddr is stored,
then the reachable goodAddr is met with DuplicateObservedAddr. -/
theorem c9_unreachable_observed_still_stored_witness :
    process_observed true cbDisconnect freshInfo badAddr =
      (MisbehaveResult.Continue,
        { freshInfo with observed_addr := some badAddr }, []) ∧
    process_observed true cbDisconnect
        { freshInfo with observed_addr := some badAddr } goodAddr =
      (cbDisconnect.misbehave freshInfo.peer_id Misbehavior.DuplicateObservedAddr,
        { freshInfo with observed_addr := some badAddr },
        [Event.misbehave freshInfo.peer_id Misbehavior.DuplicateObservedAddr]) :=
  c9_unreachable_observed_still_stored cbDisconnect freshInfo badAddr goodAddr
    rfl (by decide)

/-- C7 counterexample: listen_addrs sorts ascending by score and keeps the
first ten, so with eleven distinctly-scored pairs the unique best-scored
(maximal-score) address is dropped while the worst-scored one is kept,
refuting that the 10 best-scored addresses are selected. -/
theorem c7_counterexample :
    (scoredAddr 10, 10) ∈ pairs11 ∧
    (∀ p ∈ pairs11, p.2 ≤ 10) ∧
    scoredAddr 10 ∉ listen_addrs pairs11 ∧
    scoredAddr 0 ∈ listen_addrs pairs11 := by
  decide

/-- C7 amended: listen_addrs returns, of the (address, score) pairs returned
by public_addrs, the first MAX_RETURN_LISTEN_ADDRS = 10 addresses of a
stable ascending sort by score — the 10 lowest-scored addresses, in
ascending score order. -/
theorem c7_amended_lowest_scores_ascending (ps : List (Multiaddr × Nat)) :
    ∃ qs : List (Multiaddr × Nat),
      qs.Perm ps ∧
      qs.Sorted (fun a b => a.2 ≤ b.2) ∧
      listen_addrs ps =
        (qs.take MAX_RETURN_LISTEN_ADDRS).map (fun p => p.1) := by
  refine ⟨ps.insertionSort (fun a b => a.2 ≤ b.2),
    List.perm_insertionSort _ _, ?_, rfl⟩
  haveI : IsTotal (Multiaddr × Nat) (fun a b => a.2 ≤ b.2) :=
    ⟨fun a b => Nat.le_total a.2 b.2⟩
  haveI : IsTrans (Multiaddr × Nat) (fun a b => a.2 ≤ b.2) :=
    ⟨fun _ _ _ hab hbc => Nat.le_trans hab hbc⟩
  exact List.sorted_insertionSort _ _

/-- C6: every public TxPoolController operation enqueues with try_send and
surfaces channel failures synchronously — on a channel at capacity it
returns the backpressure error and on a closed channel the shutdown error,
in both cases as an errored outcome that never reaches the reply wait. -/
theorem c6_controller_nonblocking_errors (c : Channel Message)
    (bl pl mv : Option Nat) (txs : List TransactionView)
    (ids : List ProposalShortId) (id n : Nat) (entries : List Nat) :
    (c.closed = true →
      get_block_template c bl pl mv = OpOutcome.errored ControllerError.shutdown ∧
      notify_new_uncle c = OpOutcome.errored ControllerError.shutdown ∧
      update_tx_pool_for_reorg c = OpOutcome.errored ControllerError.shutdown ∧
      submit_txs c txs = OpOutcome.errored ControllerError.shutdown ∧
      plug_entry c entries = OpOutcome.errored ControllerError.shutdown ∧
      notify_txs c txs = OpOutcome.errored ControllerError.shutdown ∧
      get_tx_pool_info c = OpOutcome.errored ControllerError.shutdown ∧
      fresh_proposals_filter c ids = OpOutcome.errored ControllerError.shutdown ∧
      fetch_tx_for_rpc c id = OpOutcome.errored ControllerError.shutdown ∧
      fetch_txs c ids = OpOutcome.errored ControllerError.shutdown ∧
      fetch_txs_with_cycles c ids = OpOutcome.errored ControllerError.shutdown ∧
      estimate_fee_rate c n = OpOutcome.errored ControllerError.shutdown) ∧
    (c.closed = false → c.capacity ≤ c.queue.length →
      get_block_template c bl pl mv = OpOutcome.errored ControllerError.backpressure ∧
      notify_new_uncle c = OpOutcome.errored ControllerError.backpressure ∧
      update_tx_pool_for_reorg c = OpOutcome.errored ControllerError.backpressure ∧
      submit_txs c txs = OpOutcome.errored ControllerError.backpressure ∧
      plug_entry c entries = OpOutcome.errored ControllerError.backpressure ∧
      notify_txs c txs = OpOutcome.errored ControllerError.backpressure ∧
      get_tx_pool_info c = OpOutcome.errored ControllerError.backpressure ∧
      fresh_proposals_filter c ids = OpOutcome.errored ControllerError.backpressure ∧
      fetch_tx_for_rpc c id = OpOutcome.errored ControllerError.backpressure ∧
      fetch_txs c ids = OpOutcome.errored ControllerError.backpressure ∧
      fetch_txs_with_cycles c ids = OpOutcome.errored ControllerError.backpressure ∧
      estimate_fee_rate c n = OpOutcome.errored ControllerError.backpressure) := by
  constructor
  · intro h
    have ht : ∀ m : Message, c.try_send m = Except.error TrySendError.closed := by
      intro m
      simp [Channel.try_send, h]
    refine ⟨?_, ?_, ?_, ?_, ?_, ?_, ?_, ?_, ?_, ?_, ?_, ?_⟩ <;>
      simp [get_block_template, notify_new_uncle, update_tx_pool_for_reorg,
        submit_txs, plug_entry, notify_txs, get_tx_pool_info,
        fresh_proposals_filter, fetch_tx_for_rpc, fetch_txs,
        fetch_txs_with_cycles, estimate_fee_rate, ht, handle_try_send_error]
  · intro h hfull
    have ht : ∀ m : Message, c.try_send m = Except.error TrySendError.full := by
      intro m
      simp [Channel.try_send, h, hfull]
    refine ⟨?_, ?_, ?_, ?_, ?_, ?_, ?_, ?_, ?_, ?_, ?_, ?_⟩ <;>
      simp [get_block_template, notify_new_uncle, update_tx_pool_for_reorg,
        submit_txs, plug_entry, notify_txs, get_tx_pool_info,
        fresh_proposals_filter, fetch_tx_for_rpc, fetch_txs,
        fetch_txs_with_cycles, estimate_fee_rate, ht, handle_try_send_error]

/-- Witness for C6: a full open channel yields backpressure, a closed channel
yields shutdown, both without a reply wait. -/
theorem c6_controller_nonblocking_errors_witness :
    submit_txs fullChannel [1] = OpOutcome.errored ControllerError.backpressure ∧
    get_block_template closedChannel none none none =
      OpOutcome.errored ControllerError.shutdown := by
  have h1 := c6_controller_nonblocking_errors fullChannel none none none [1] [] 0 0 []
  have h2 := c6_controller_nonblocking_errors closedChannel none none none [1] [] 0 0 []
  refine ⟨(h1.2 rfl ?_).2.2.2.1, (h2.1 rfl).1⟩
  simp [fullChannel]

/-- C10: the FetchTxsWithCycles handler replies with exactly the requested
short ids whose transaction is present in the pool and whose cycle count is
known; ids with no transaction, or with a transaction whose cycle count is
still None, are omitted. -/
theorem c10_fetch_txs_with_cycles_exact
    (pool : List (ProposalShortId × TransactionView × Option Cycle))
    (short_ids : List ProposalShortId) (id : ProposalShortId)
    (tx : TransactionView) (cycles : Cycle) :
    (id, tx, cycles) ∈ process_fetch_txs_with_cycles pool short_ids ↔
      id ∈ short_ids ∧ get_tx_with_cycles pool id = some (tx, some cycles) := by
  simp only [process_fetch_txs_with_cycles, List.mem_filterMap]
  constructor
  · rintro ⟨sid, hsid, hf⟩
    rcases hget : get_tx_with_cycles pool sid with _ | ⟨tx0, cys⟩
    · rw [hget] at hf
      simp at hf
    · rw [hget] at hf
      rcases cys with _ | cy
      · simp at hf
      · simp at hf
        obtain ⟨h1, h2, h3⟩ := hf
        subst h1
        subst h2
        subst h3
        exact ⟨hsid, hget⟩
  · rintro ⟨hmem, hget⟩
    exact ⟨id, hmem, by simp [hget]⟩

end CkbSpec
